import Mathlib

/-!
Shallow embedding of `kernel/cgroup_freezer.c` (the cgroup freezer subsystem)
and verification of its specification.

The per-process pause primitive (`freeze_task`, `frozen`, `freezing`,
`task_is_stopped_or_traced`, `freezer_should_skip`, `__thaw_process`,
`wake_up_process`) lives outside this file's source; each member task is
therefore modelled as a record of the values those externally-implemented
predicates return when the freezer consults them during one locked operation.
Each freezer operation is embedded as a pure function from the member
snapshot and the cached state to the new cached state, the C return value,
and a trace of effects: writes to `freezer->state` and calls into the
process-management adapter.
-/

/-- The three values of `enum freezer_state`. -/
inductive FreezerState where
  | STATE_RUNNING
  | STATE_FREEZING
  | STATE_FROZEN
deriving DecidableEq

namespace CgroupFreezer

open FreezerState

/-- Observable behaviour of one member task during a single locked freezer
operation: the flags the freezer reads, the result of the `freeze_task`
pause request, the `freezing` flag as re-read after that request, and the
wake decision `__thaw_process` returns. -/
structure Task where
  tid : Nat
  frozen : Bool
  stopped_or_traced : Bool
  freezing : Bool
  should_skip : Bool
  freeze_task_ret : Bool
  freezing_after : Bool
  thaw_wake : Bool
deriving DecidableEq

/-- Effects a freezer operation performs: writes to `freezer->state` and
calls into the external process-management adapter. -/
inductive Effect where
  | setState (s : FreezerState)
  | freeze_task_call (tid : Nat)
  | thaw_call (tid : Nat)
  | wake_call (tid : Nat)
deriving DecidableEq

/-- Error number `EBUSY`. -/
def EBUSY : Int := 16

/-- Error number `EIO`. -/
def EIO_CODE : Int := 5

/-- Error number `ENODEV`. -/
def ENODEV : Int := 19

/-- The string table `freezer_state_strs`, indexed by the state enum. -/
def freezer_state_strs : FreezerState → String
  | STATE_RUNNING => "RUNNING"
  | STATE_FREEZING => "FREEZING"
  | STATE_FROZEN => "FROZEN"

/-- The per-task test in `check_if_frozen`'s loop:
`frozen(task) || (task_is_stopped_or_traced(task) && freezing(task))`. -/
def task_counts_frozen (t : Task) : Bool :=
  t.frozen || (t.stopped_or_traced && t.freezing)

/-- Embedding of `check_if_frozen`: count members that are frozen or will
freeze on next wake; when that count equals the member total, write
`STATE_FROZEN` into the cached state. Returns the new cached state and the
trace of state writes. -/
def check_if_frozen (tasks : List Task) (st : FreezerState) :
    FreezerState × List Effect :=
  if tasks.countP task_counts_frozen = tasks.length then
    (STATE_FROZEN, [Effect.setState STATE_FROZEN])
  else
    (st, [])

/-- The per-task classification in `try_to_freeze_cgroup`'s loop, transcribed
branch for branch: a task increments `num_cant_freeze_now` when
`freeze_task` returned nonzero, the task is not stopped/traced-with-pending
pause, and after the request it is neither freezing nor marked skip. -/
def task_cant_freeze_now (t : Task) : Bool :=
  if !t.freeze_task_ret then false
  else if t.stopped_or_traced && t.freezing_after then false
  else if !t.freezing_after && !t.should_skip then true
  else false

/-- Embedding of `try_to_freeze_cgroup`: set the cached state to
`STATE_FREEZING`, issue `freeze_task` for every member, and return `-EBUSY`
exactly when `num_cant_freeze_now` is nonzero. -/
def try_to_freeze_cgroup (tasks : List Task) :
    FreezerState × Int × List Effect :=
  (STATE_FREEZING,
   if tasks.countP task_cant_freeze_now ≠ 0 then -EBUSY else 0,
   Effect.setState STATE_FREEZING ::
     tasks.map (fun t => Effect.freeze_task_call t.tid))

/-- Adapter calls `unfreeze_cgroup` makes for one member: `__thaw_process`,
then `wake_up_process` when the thaw reported the task runnable. -/
def thaw_effects (t : Task) : List Effect :=
  Effect.thaw_call t.tid ::
    (if t.thaw_wake then [Effect.wake_call t.tid] else [])

/-- Embedding of `unfreeze_cgroup`: thaw (and possibly wake) every member,
set the cached state to `STATE_RUNNING`, return 0 unconditionally. -/
def unfreeze_cgroup (tasks : List Task) :
    FreezerState × Int × List Effect :=
  (STATE_RUNNING, 0,
   (tasks.map thaw_effects).flatten ++ [Effect.setState STATE_RUNNING])

/-- Embedding of `freezer_change_state`: refresh the cached state through
`check_if_frozen`, return 0 when the goal is already reached, otherwise
dispatch on the refreshed state exactly as the C `switch` (including the
fall-through from `STATE_FREEZING` to the unfreeze arm when the goal is not
`STATE_FROZEN`). -/
def freezer_change_state (tasks : List Task) (st goal_state : FreezerState) :
    FreezerState × Int × List Effect :=
  let c := check_if_frozen tasks st
  if goal_state = c.1 then (c.1, 0, c.2)
  else
    match c.1 with
    | STATE_RUNNING =>
        let r := try_to_freeze_cgroup tasks
        (r.1, r.2.1, c.2 ++ r.2.2)
    | STATE_FREEZING =>
        if goal_state = STATE_FROZEN then
          let r := try_to_freeze_cgroup tasks
          (r.1, r.2.1, c.2 ++ r.2.2)
        else
          let r := unfreeze_cgroup tasks
          (r.1, r.2.1, c.2 ++ r.2.2)
    | STATE_FROZEN =>
        let r := unfreeze_cgroup tasks
        (r.1, r.2.1, c.2 ++ r.2.2)

/-- Embedding of `freezer_read`: fail with `-ENODEV` on a dead group;
otherwise run `check_if_frozen` when and only when the cached value is
`STATE_FREEZING`, and emit the state string followed by a newline. -/
def freezer_read (tasks : List Task) (st : FreezerState) (live : Bool) :
    FreezerState × Int × String :=
  if !live then (st, -ENODEV, "")
  else
    let st' := if st = STATE_FREEZING then (check_if_frozen tasks st).1 else st
    (st', 0, freezer_state_strs st' ++ "\n")

/-- The goal parsing at the top of `freezer_write`: only the exact strings
of `STATE_RUNNING` and `STATE_FROZEN` are accepted. -/
def parse_goal (buffer : String) : Option FreezerState :=
  if buffer = freezer_state_strs STATE_RUNNING then some STATE_RUNNING
  else if buffer = freezer_state_strs STATE_FROZEN then some STATE_FROZEN
  else none

/-- Embedding of `freezer_write`: parse the buffer (rejecting everything but
`RUNNING` and `FROZEN` with `-EIO`), fail with `-ENODEV` on a dead group,
otherwise run `freezer_change_state` with the parsed goal. -/
def freezer_write (tasks : List Task) (st : FreezerState) (live : Bool)
    (buffer : String) : FreezerState × Int × List Effect :=
  match parse_goal buffer with
  | none => (st, -EIO_CODE, [])
  | some goal_state =>
      if !live then (st, -ENODEV, [])
      else freezer_change_state tasks st goal_state

/-- Embedding of `freezer_can_attach`: refuse with `-EBUSY` exactly when the
target group's cached state is `STATE_FROZEN`. -/
def freezer_can_attach (st : FreezerState) : Int :=
  if st = STATE_FROZEN then -EBUSY else 0

/-- Result of `freezer_fork`: either the `BUG_ON(freezer->state ==
STATE_FROZEN)` assertion fires, or the hook completes with a (possibly
empty) list of adapter calls. -/
inductive ForkResult where
  | bug_on
  | ok (effects : List Effect)
deriving DecidableEq

/-- Embedding of `freezer_fork`: assert the group is not `STATE_FROZEN`,
then issue `freeze_task` for the forked task exactly when the cached state
is `STATE_FREEZING`. -/
def freezer_fork (st : FreezerState) (t : Task) : ForkResult :=
  if st = STATE_FROZEN then ForkResult.bug_on
  else ForkResult.ok
    (if st = STATE_FREEZING then [Effect.freeze_task_call t.tid] else [])

/-- Projection of a trace to the sequence of values written to
`freezer->state`. -/
def stateWrites (tr : List Effect) : List FreezerState :=
  tr.filterMap (fun e =>
    match e with
    | Effect.setState s => some s
    | _ => none)

/-- Whether an effect is a call into the process-management adapter (as
opposed to a write of the cached state). -/
def is_adapter_call : Effect → Bool
  | Effect.setState _ => false
  | Effect.freeze_task_call _ => true
  | Effect.thaw_call _ => true
  | Effect.wake_call _ => true

/-- Transitions the cached state variable can undergo in one write: the
documented graph `RUNNING → FREEZING → FROZEN`, `FREEZING → RUNNING`,
`FROZEN → RUNNING`, value-preserving rewrites, plus the direct
`RUNNING → FROZEN` edge taken by `check_if_frozen` when every member of a
running group already counts as frozen (in particular when it has none). -/
def freeze_edge (a b : FreezerState) : Bool :=
  match a, b with
  | STATE_RUNNING, STATE_FREEZING => true
  | STATE_RUNNING, STATE_FROZEN => true
  | STATE_FREEZING, STATE_FROZEN => true
  | _, STATE_RUNNING => true
  | a, b => a = b

/-- Sample member: runnable, not frozen, declines the pause request (so it
blocks a freeze attempt). -/
def t0 : Task :=
  { tid := 0, frozen := false, stopped_or_traced := false, freezing := false,
    should_skip := false, freeze_task_ret := true, freezing_after := false,
    thaw_wake := true }

/-- Sample member: already frozen. -/
def t1 : Task :=
  { tid := 1, frozen := true, stopped_or_traced := false, freezing := false,
    should_skip := false, freeze_task_ret := false, freezing_after := false,
    thaw_wake := true }

theorem stateWrites_nil : stateWrites ([] : List Effect) = [] := rfl

theorem stateWrites_cons_set (s : FreezerState) (l : List Effect) :
    stateWrites (Effect.setState s :: l) = s :: stateWrites l := by
  simp [stateWrites]

theorem stateWrites_append (l1 l2 : List Effect) :
    stateWrites (l1 ++ l2) = stateWrites l1 ++ stateWrites l2 := by
  simp [stateWrites]

theorem stateWrites_freeze_calls (tasks : List Task) :
    stateWrites (tasks.map (fun t => Effect.freeze_task_call t.tid)) = [] := by
  induction tasks with
  | nil => rfl
  | cons t ts ih =>
      rw [List.map_cons]
      rw [show stateWrites (Effect.freeze_task_call t.tid ::
            ts.map (fun t => Effect.freeze_task_call t.tid)) =
          stateWrites (ts.map (fun t => Effect.freeze_task_call t.tid)) from rfl]
      exact ih

theorem stateWrites_try_trace (tasks : List Task) :
    stateWrites (try_to_freeze_cgroup tasks).2.2 = [STATE_FREEZING] := by
  have h := stateWrites_freeze_calls tasks
  simp [try_to_freeze_cgroup, stateWrites_cons_set, h]

theorem stateWrites_thaw_effects (t : Task) :
    stateWrites (thaw_effects t) = [] := by
  cases h : t.thaw_wake <;> simp [thaw_effects, stateWrites, h]

theorem stateWrites_unfreeze_trace (tasks : List Task) :
    stateWrites (unfreeze_cgroup tasks).2.2 = [STATE_RUNNING] := by
  have h : stateWrites (tasks.map thaw_effects).flatten = [] := by
    induction tasks with
    | nil => rfl
    | cons t ts ih =>
        simp [stateWrites_append, stateWrites_thaw_effects t, ih]
  simp [unfreeze_cgroup, stateWrites_append, h, stateWrites_cons_set,
        stateWrites_nil]

theorem thaw_call_mem_unfreeze (tasks : List Task) (t : Task) (ht : t ∈ tasks) :
    Effect.thaw_call t.tid ∈ (unfreeze_cgroup tasks).2.2 := by
  refine List.mem_append_left _ ?_
  exact List.mem_flatten.mpr
    ⟨thaw_effects t, List.mem_map_of_mem thaw_effects ht, by simp [thaw_effects]⟩

/-- C1: `check_if_frozen` moves a non-frozen cached state to `STATE_FROZEN`
exactly when the number of members that are frozen now, or stopped/traced
with a pause pending, equals the member total; consequently a state-file
read of a not-yet-frozen group never reports `FROZEN` while some member is
neither paused nor exempt. -/
theorem C1_check_if_frozen_exact (tasks : List Task) (st : FreezerState)
    (h : st ≠ STATE_FROZEN) :
    ((check_if_frozen tasks st).1 = STATE_FROZEN ↔
        tasks.countP task_counts_frozen = tasks.length) ∧
    ((∃ t ∈ tasks, task_counts_frozen t = false) →
      (freezer_read tasks st true).2.2 ≠ "FROZEN\n") := by
  constructor
  · by_cases hc : tasks.countP task_counts_frozen = tasks.length <;>
      simp [check_if_frozen, hc, h]
  · intro hex
    have hc : tasks.countP task_counts_frozen ≠ tasks.length := by
      intro hc
      obtain ⟨t, ht, hft⟩ := hex
      have hcount := List.countP_eq_length.mp hc t ht
      rw [hft] at hcount
      exact Bool.noConfusion hcount
    cases st with
    | STATE_FROZEN => exact absurd rfl h
    | STATE_RUNNING => simp [freezer_read, freezer_state_strs]
    | STATE_FREEZING =>
        simp [freezer_read, check_if_frozen, hc, freezer_state_strs]

/-- Witness for C1: a freezing group with one unpausable, unfrozen member. -/
theorem C1_check_if_frozen_exact_witness :
    (((check_if_frozen [t0] STATE_FREEZING).1 = STATE_FROZEN ↔
        [t0].countP task_counts_frozen = [t0].length) ∧
     ((∃ t ∈ [t0], task_counts_frozen t = false) →
       (freezer_read [t0] STATE_FREEZING true).2.2 ≠ "FROZEN\n")) :=
  C1_check_if_frozen_exact [t0] STATE_FREEZING (by decide)

/-- Counterexample to C2 as stated: a freeze request on an empty group in
`STATE_RUNNING` makes `freezer_change_state` jump directly to
`STATE_FROZEN` through `check_if_frozen` — the state is never written to
`STATE_FREEZING`, no adapter call is issued, and `try_to_freeze_cgroup`
(whose trace always starts by writing `STATE_FREEZING`) is never run. -/
theorem C2_empty_group_direct_frozen :
    freezer_change_state [] STATE_RUNNING STATE_FROZEN =
      (STATE_FROZEN, 0, [Effect.setState STATE_FROZEN]) ∧
    STATE_FREEZING ∉
      stateWrites (freezer_change_state [] STATE_RUNNING STATE_FROZEN).2.2 ∧
    (freezer_change_state [] STATE_RUNNING STATE_FROZEN).2.2.filter
      is_adapter_call = [] := by
  decide

/-- C2 (amended): the cached state evolves only along
`RUNNING → FREEZING → FROZEN`, `{FREEZING, FROZEN} → RUNNING`, plus a direct
`RUNNING → FROZEN` edge taken by the convergence check; a running group
reaches `FROZEN` only when the convergence check confirms every member
(vacuously, zero members) already counts as frozen, in which case the
attempt-freeze path is skipped; an empty-group freeze request lands on
`FROZEN` with success directly from the convergence check. -/
theorem C2_transition_graph (tasks : List Task) (st goal_state : FreezerState) :
    List.Chain (fun a b => freeze_edge a b = true) st
      (stateWrites (freezer_change_state tasks st goal_state).2.2) ∧
    (st = STATE_RUNNING →
      (freezer_change_state tasks st goal_state).1 = STATE_FROZEN →
      tasks.countP task_counts_frozen = tasks.length ∧
      STATE_FREEZING ∉
        stateWrites (freezer_change_state tasks st goal_state).2.2) ∧
    (tasks = [] → st = STATE_RUNNING → goal_state = STATE_FROZEN →
      freezer_change_state tasks st goal_state =
        (STATE_FROZEN, 0, [Effect.setState STATE_FROZEN])) := by
  refine ⟨?_, ?_, ?_⟩
  · by_cases hc : tasks.countP task_counts_frozen = tasks.length <;>
      cases st <;> cases goal_state <;>
        simp [freezer_change_state, check_if_frozen, hc, stateWrites_nil,
              stateWrites_cons_set, stateWrites_append, stateWrites_try_trace,
              stateWrites_unfreeze_trace, List.chain_cons, freeze_edge]
  · intro hs hr
    subst hs
    revert hr
    by_cases hc : tasks.countP task_counts_frozen = tasks.length <;>
      cases goal_state <;>
        simp [freezer_change_state, check_if_frozen, try_to_freeze_cgroup,
              unfreeze_cgroup, hc, stateWrites_nil, stateWrites_cons_set,
              stateWrites_append]
  · intro h1 h2 h3
    subst h1; subst h2; subst h3
    decide

/-- Witness for C2 (amended): the empty-group freeze request instance. -/
theorem C2_transition_graph_witness :
    (List.Chain (fun a b => freeze_edge a b = true) STATE_RUNNING
      (stateWrites (freezer_change_state [] STATE_RUNNING STATE_FROZEN).2.2) ∧
    (STATE_RUNNING = STATE_RUNNING →
      (freezer_change_state [] STATE_RUNNING STATE_FROZEN).1 = STATE_FROZEN →
      ([] : List Task).countP task_counts_frozen = ([] : List Task).length ∧
      STATE_FREEZING ∉
        stateWrites (freezer_change_state [] STATE_RUNNING STATE_FROZEN).2.2) ∧
    (([] : List Task) = [] → STATE_RUNNING = STATE_RUNNING →
      STATE_FROZEN = STATE_FROZEN →
      freezer_change_state [] STATE_RUNNING STATE_FROZEN =
        (STATE_FROZEN, 0, [Effect.setState STATE_FROZEN]))) :=
  C2_transition_graph [] STATE_RUNNING STATE_FROZEN

/-- C3: thawing a group whose cached state is `STATE_FREEZING` or
`STATE_FROZEN` always succeeds: the result state is `STATE_RUNNING`, the
return value is 0 unconditionally (per-member thaw outcomes are never
escalated), and a `__thaw_process` call is issued for every member. -/
theorem C3_thaw_always_succeeds (tasks : List Task) (st : FreezerState)
    (h : st = STATE_FREEZING ∨ st = STATE_FROZEN) :
    (freezer_change_state tasks st STATE_RUNNING).1 = STATE_RUNNING ∧
    (freezer_change_state tasks st STATE_RUNNING).2.1 = 0 ∧
    ∀ t ∈ tasks, Effect.thaw_call t.tid ∈
      (freezer_change_state tasks st STATE_RUNNING).2.2 := by
  have key : freezer_change_state tasks st STATE_RUNNING =
      (STATE_RUNNING, 0,
       (check_if_frozen tasks st).2 ++ (unfreeze_cgroup tasks).2.2) := by
    rcases h with h | h <;> subst h <;>
      by_cases hc : tasks.countP task_counts_frozen = tasks.length <;>
        simp [freezer_change_state, check_if_frozen, hc, unfreeze_cgroup]
  rw [key]
  refine ⟨rfl, rfl, ?_⟩
  intro t ht
  exact List.mem_append_right _ (thaw_call_mem_unfreeze tasks t ht)

/-- Witness for C3: a frozen group with one member. -/
theorem C3_thaw_always_succeeds_witness :
    ((freezer_change_state [t1] STATE_FROZEN STATE_RUNNING).1 = STATE_RUNNING ∧
    (freezer_change_state [t1] STATE_FROZEN STATE_RUNNING).2.1 = 0 ∧
    ∀ t ∈ [t1], Effect.thaw_call t.tid ∈
      (freezer_change_state [t1] STATE_FROZEN STATE_RUNNING).2.2) :=
  C3_thaw_always_succeeds [t1] STATE_FROZEN (Or.inr rfl)

/-- C4: `try_to_freeze_cgroup` leaves the cached state at `STATE_FREEZING`
(also on a busy result), its first effect is the write of `STATE_FREEZING`
(before any member is scanned), and it returns `-EBUSY` exactly when some
member could not be paused and is not exempt. -/
theorem C4_try_to_freeze_busy_iff (tasks : List Task) :
    (try_to_freeze_cgroup tasks).1 = STATE_FREEZING ∧
    ((try_to_freeze_cgroup tasks).2.2).head? =
      some (Effect.setState STATE_FREEZING) ∧
    ((try_to_freeze_cgroup tasks).2.1 = -EBUSY ↔
      ∃ t ∈ tasks, task_cant_freeze_now t = true) := by
  refine ⟨rfl, rfl, ?_⟩
  constructor
  · intro hret
    by_cases h : tasks.countP task_cant_freeze_now = 0
    · exfalso
      simp [try_to_freeze_cgroup, h] at hret
      exact absurd hret (by decide)
    · exact List.countP_pos_iff.mp (Nat.pos_of_ne_zero h)
  · intro hex
    have h : tasks.countP task_cant_freeze_now ≠ 0 :=
      Nat.pos_iff_ne_zero.mp (List.countP_pos_iff.mpr hex)
    simp [try_to_freeze_cgroup, h]

/-- C5: when the requested goal equals the convergence-refreshed cached
state, `freezer_change_state` returns 0, ends in that very state, and
issues no call into the process-management adapter. -/
theorem C5_idempotent_no_op (tasks : List Task) (st goal_state : FreezerState)
    (h : goal_state = (check_if_frozen tasks st).1) :
    (freezer_change_state tasks st goal_state).1 = goal_state ∧
    (freezer_change_state tasks st goal_state).2.1 = 0 ∧
    ((freezer_change_state tasks st goal_state).2.2).filter
      is_adapter_call = [] := by
  have key : freezer_change_state tasks st goal_state =
      ((check_if_frozen tasks st).1, 0, (check_if_frozen tasks st).2) := by
    simp [freezer_change_state, h]
  rw [key]
  refine ⟨h.symm, rfl, ?_⟩
  by_cases hc : tasks.countP task_counts_frozen = tasks.length <;>
    simp [check_if_frozen, hc, is_adapter_call]

/-- Witness for C5: requesting `RUNNING` on a running group with one
unfrozen member performs no pause or resume call. -/
theorem C5_idempotent_no_op_witness :
    ((freezer_change_state [t0] STATE_RUNNING STATE_RUNNING).1 =
      STATE_RUNNING ∧
    (freezer_change_state [t0] STATE_RUNNING STATE_RUNNING).2.1 = 0 ∧
    ((freezer_change_state [t0] STATE_RUNNING STATE_RUNNING).2.2).filter
      is_adapter_call = []) :=
  C5_idempotent_no_op [t0] STATE_RUNNING STATE_RUNNING (by decide)

/-- C6: a state-file read on a live group succeeds, prints exactly one of
the three tokens followed by a newline, and the resulting cached state is
the convergence-refreshed one precisely when the cached value was
`STATE_FREEZING` and is untouched otherwise; the printed token is the
string of the resulting state. -/
theorem C6_read_tokens (tasks : List Task) (st : FreezerState) :
    (freezer_read tasks st true).2.1 = 0 ∧
    ((freezer_read tasks st true).2.2 = "RUNNING\n" ∨
     (freezer_read tasks st true).2.2 = "FREEZING\n" ∨
     (freezer_read tasks st true).2.2 = "FROZEN\n") ∧
    (freezer_read tasks st true).1 =
      (if st = STATE_FREEZING then (check_if_frozen tasks st).1 else st) ∧
    (freezer_read tasks st true).2.2 =
      freezer_state_strs (freezer_read tasks st true).1 ++ "\n" := by
  cases st with
  | STATE_RUNNING =>
      exact ⟨rfl, Or.inl rfl, rfl, rfl⟩
  | STATE_FROZEN =>
      exact ⟨rfl, Or.inr (Or.inr rfl), rfl, rfl⟩
  | STATE_FREEZING =>
      by_cases hc : tasks.countP task_counts_frozen = tasks.length <;>
        refine ⟨?_, ?_, ?_, ?_⟩ <;>
          simp [freezer_read, check_if_frozen, hc, freezer_state_strs]

/-- C7: `freezer_write` parses only the exact tokens `RUNNING` and
`FROZEN`; any other buffer (in particular `FREEZING`) is rejected with
`-EIO`, leaving the cached state untouched and performing no effect. -/
theorem C7_write_invalid_token (tasks : List Task) (st : FreezerState)
    (live : Bool) (buffer : String)
    (h1 : buffer ≠ "RUNNING") (h2 : buffer ≠ "FROZEN") :
    parse_goal buffer = none ∧
    freezer_write tasks st live buffer = (st, -EIO_CODE, []) := by
  have hp : parse_goal buffer = none := by
    simp [parse_goal, freezer_state_strs, h1, h2]
  exact ⟨hp, by simp [freezer_write, hp]⟩

/-- Witness for C7: writing the literal `FREEZING` fails with `-EIO` and
changes nothing. -/
theorem C7_write_invalid_token_witness :
    (parse_goal "FREEZING" = none ∧
    freezer_write [t0] STATE_FREEZING true "FREEZING" =
      (STATE_FREEZING, -EIO_CODE, [])) :=
  C7_write_invalid_token [t0] STATE_FREEZING true "FREEZING"
    (by decide) (by decide)

/-- C8: `freezer_can_attach` denies with `-EBUSY` exactly when the group's
cached state is `STATE_FROZEN`; `STATE_RUNNING` and `STATE_FREEZING` both
admit the candidate with success. -/
theorem C8_can_attach_busy_iff (st : FreezerState) :
    (freezer_can_attach st = -EBUSY ↔ st = STATE_FROZEN) ∧
    freezer_can_attach STATE_RUNNING = 0 ∧
    freezer_can_attach STATE_FREEZING = 0 := by
  cases st <;> decide

/-- C9: `freezer_fork` issues a `freeze_task` pause request for the forked
task exactly when the group's cached state is `STATE_FREEZING`; on a
running group the hook completes with no adapter call. -/
theorem C9_fork_pause_iff (t : Task) :
    freezer_fork STATE_FREEZING t =
      ForkResult.ok [Effect.freeze_task_call t.tid] ∧
    freezer_fork STATE_RUNNING t = ForkResult.ok [] := by
  exact ⟨rfl, rfl⟩

/-- C10: whenever `freezer_can_attach` admits into a group, `freezer_fork`
on that group cannot hit its `BUG_ON`; forking inside a `STATE_FROZEN`
group is a fatal assertion failure, not a handled case. -/
theorem C10_fork_bug_unreachable (t : Task) (st : FreezerState)
    (h : freezer_can_attach st = 0) :
    freezer_fork st t ≠ ForkResult.bug_on ∧
    freezer_fork STATE_FROZEN t = ForkResult.bug_on := by
  cases st with
  | STATE_RUNNING => exact ⟨by simp [freezer_fork], rfl⟩
  | STATE_FREEZING => exact ⟨by simp [freezer_fork], rfl⟩
  | STATE_FROZEN => exact absurd h (by decide)

/-- Witness for C10: an admissible (running) group. -/
theorem C10_fork_bug_unreachable_witness :
    (freezer_fork STATE_RUNNING t0 ≠ ForkResult.bug_on ∧
    freezer_fork STATE_FROZEN t0 = ForkResult.bug_on) :=
  C10_fork_bug_unreachable t0 STATE_RUNNING (by decide)

end CgroupFreezer
